import Mathlib

/-!
Shallow embedding of `custom_components/xiaomi_gateway3/core/converters/zigbee.py`:
the zigbee attribute-converter classes (decode / encode / read / config), the
default `REPORTING` policy table, and the device-family decoders
(`ZAqaraCubeMain`, `ZSonoffButtonConv`, `ZTuyaPowerOnConv`, `ZAqaraOppleMode`,
`ZBrightnessConv`, `ZBatteryConv`, `ZTemperatureConv`, `ZHumidityConv`,
`ZIlluminanceConv`, `ZElectricalConv`).

Modelling conventions:
- Python ints are `Int`; Python floats are modelled as exact rationals `ℚ`
  (the scalings involved — /100, /2, *100, *0.001 — are treated in exact
  arithmetic, as the spec does).
- Python dict values on the wire are `PyVal`; dict keys may be strings or
  numeric codes (`Key`).  Dicts are association lists, first match wins.
  Python tuples appearing in this module are pairs `(value, transition)`,
  modelled by the binary `PyVal.tuple` (tuples of other arity, which would
  raise inside the request builders, are not modelled).
- The mutable `payload` dict, which accumulates semantic attributes and a
  `commands` list, is the structure `Payload`.  A Python method that mutates
  `payload` and may raise is modelled as returning `Payload × Option PyErr`:
  the returned payload keeps every mutation made before the raise, exactly as
  the in-place Python mutation does.
- `value & mask` is `Int.land` (two's complement, as in Python);
  `value >> n` is `pyShr` (floor shift, as in Python);
  `int(x)` on a float is `pyInt` (truncation toward zero, as in Python).
-/

/-- Python runtime value as it appears in the wire-report / payload dicts of
`zigbee.py`. -/
inductive PyVal where
  | int : Int → PyVal
  | float : ℚ → PyVal
  | str : String → PyVal
  | bool : Bool → PyVal
  | pynone : PyVal
  | tuple : PyVal → PyVal → PyVal
deriving DecidableEq, Repr

/-- Python dict key: a string (attribute / cluster name) or a numeric code
(such as `0x8002`, `9`, `51`). -/
inductive Key where
  | s : String → Key
  | n : Int → Key
deriving DecidableEq, Repr

/-- Wire report: the `value: dict` argument of `decode`, an association list
from keys to raw values (first binding wins, as in a Python dict). -/
def Dict := List (Key × PyVal)

/-- Dict lookup, `value.get(k)` / `value[k]`. -/
def dget : Dict → Key → Option PyVal
  | [], _ => Option.none
  | (k, v) :: rest, k₀ => if k = k₀ then some v else dget rest k₀

/-- Dict membership, `k in value`. -/
def dmem (d : Dict) (k : Key) : Bool :=
  (dget d k).isSome

/-- Python exceptions raised by code in this module. -/
inductive PyErr where
  | keyError
  | typeError
  | stopIteration
deriving DecidableEq, Repr

/-- Modelled from the spec: the request builders of `core/converters/silabs.py`
(`zcl_read`, `zcl_write`, `zdo_bind`, `zdb_report`, `zcl_on_off`, `zcl_level`,
`zcl_color`) are not under `src/`.  Per the spec a command is "an opaque,
transport-ready request unit" determined by the semantic arguments each builder
receives (endpoint, cluster, attribute, value, optional manufacturer code,
optional type tag); each builder yields one such unit. -/
inductive Command where
  | read (nwk : String) (ep : Int) (cluster : Key) (attrs : List Key)
  | write (nwk : String) (ep : Int) (cluster : Key) (attr : Key) (data : PyVal)
      (mfg : Option Int) (typ : Option Int)
  | bind (nwk : String) (ep : Int) (cluster : Key) (mac : String) (ieee : String)
  | report (nwk : String) (ep : Int) (cluster : Key) (attr : String)
      (mint maxt change : Int)
  | onoff (nwk : String) (ep : Int) (value : Bool)
  | level (nwk : String) (ep : Int) (lvl : PyVal) (transition : PyVal)
  | color (nwk : String) (ep : Int) (ct : PyVal) (transition : PyVal)
deriving DecidableEq, Repr

def zcl_read (nwk : String) (ep : Int) (cluster : Key) (attrs : List Key) :
    List Command := [Command.read nwk ep cluster attrs]

def zcl_write (nwk : String) (ep : Int) (cluster : Key) (attr : Key)
    (data : PyVal) (mfg : Option Int) (typ : Option Int) : List Command :=
  [Command.write nwk ep cluster attr data mfg typ]

def zdo_bind (nwk : String) (ep : Int) (cluster : Key) (mac : String)
    (ieee : String) : List Command := [Command.bind nwk ep cluster mac ieee]

def zdb_report (nwk : String) (ep : Int) (cluster : Key) (attr : String)
    (mint maxt change : Int) : List Command :=
  [Command.report nwk ep cluster attr mint maxt change]

def zcl_on_off (nwk : String) (ep : Int) (value : Bool) : List Command :=
  [Command.onoff nwk ep value]

def zcl_level (nwk : String) (ep : Int) (lvl : PyVal) (transition : PyVal) :
    List Command := [Command.level nwk ep lvl transition]

/-- Semantic payload: the mutable `payload` dict split into its semantic
attributes and its `commands` list (under the `"commands"` key in Python,
created on first use by `setdefault`). -/
structure Payload where
  attrs : List (String × PyVal) := []
  commands : List Command := []
deriving DecidableEq, Repr

def emptyPayload : Payload := {}

/-- Payload attribute assignment `payload[k] = v` (overwrite in place,
keep insertion order, append when new — as a Python dict does). -/
def aset : List (String × PyVal) → String → PyVal → List (String × PyVal)
  | [], k, v => [(k, v)]
  | (k₀, v₀) :: rest, k, v =>
    if k₀ = k then (k, v) :: rest else (k₀, v₀) :: aset rest k v

def pset (p : Payload) (k : String) (v : PyVal) : Payload :=
  { p with attrs := aset p.attrs k v }

/-- Payload key test (`k in payload`). -/
def pHasKey (p : Payload) (k : String) : Bool :=
  p.attrs.any (fun kv => kv.1 = k)

/-- Append commands: `payload.setdefault("commands", []).extend(cmd)`. -/
def paddCommands (p : Payload) (cmd : List Command) : Payload :=
  { p with commands := p.commands ++ cmd }

/-- Python `==` between a wire value and an int (`bool` is an int subtype;
cross-type comparison is `False`, never an error). -/
def pyEqInt : PyVal → Int → Bool
  | PyVal.int v, n => v = n
  | PyVal.bool b, n => (if b then (1 : Int) else 0) = n
  | PyVal.float q, n => q = (n : ℚ)
  | _, _ => false

/-- Python `isinstance(x, int)` view: an `Int` for ints and bools (Python
`bool` is a subclass of `int`), nothing otherwise. -/
def pyAsInt : Option PyVal → Option Int
  | some (PyVal.int v) => some v
  | some (PyVal.bool b) => some (if b then 1 else 0)
  | _ => Option.none

/-- Python `int(q)` on a float: truncation toward zero. -/
def pyInt (q : ℚ) : Int :=
  if 0 ≤ q then ⌊q⌋ else ⌈q⌉

/-- Python `v >> k` on an int: arithmetic (floor) right shift. -/
def pyShr (v : Int) (k : Nat) : Int :=
  Int.fdiv v (2 ^ k)

/-- External device handle: only the addressing fields `zigbee.py` reads. -/
structure XDevice where
  nwk : String
  mac : String
deriving DecidableEq, Repr

structure Gateway where
  ieee : String
deriving DecidableEq, Repr

/-- Reportable flag `report: Union[bool, list] = None` of `ZConverter`. -/
inductive RepField where
  | nofield
  | rbool : Bool → RepField
  | rlist : List Int → RepField
deriving DecidableEq, Repr

/-- Declarative converter record: the dataclass fields of `ZConverter`
(`ep`, `bind`, `report`) together with the per-class attributes `zigbee`,
`zattr` and the `MathConv` multiplier that the concrete instances set.
The identity fields `attr` (semantic attribute name) and the domain are from
the `Converter` base class in `core/converters/base.py` (not under `src/`);
only `attr` is used by the code modelled here. -/
structure ZConv where
  attr : String
  ep : Int := 1
  zigbee : Key := Key.s ""
  zattr : Option Key := Option.none
  bind : Option Bool := Option.none
  report : RepField := RepField.nofield
  multiply : ℚ := 1
deriving DecidableEq, Repr

/-- Modelled from the spec: `HOUR` comes from `core/converters/const.py`,
not under `src/`; spec §4.3 gives the intervals as 3600 s and 43200 s. -/
def HOUR : Int := 3600

def HOUR12 : Int := 43200

/-- Default reporting settings table `REPORTING` of `zigbee.py`. -/
def REPORTING : List (String × (Int × Int × Int)) :=
  [("temperature:measured_value", (10, HOUR, 100)),
   ("humidity:measured_value", (10, HOUR, 100)),
   ("power:battery_percentage_remaining", (HOUR, HOUR12, 0)),
   ("power:battery_voltage", (HOUR, HOUR12, 0)),
   ("occupancy:occupancy", (0, HOUR, 0)),
   ("illuminance:measured_value", (10, HOUR, 5))]

def reportingGet (k : String) : Option (Int × Int × Int) :=
  (REPORTING.find? (fun kv => kv.1 = k)).map (fun kv => kv.2)

/-- Python `str(...)` of a cluster / attribute identifier, as used by the
f-string `f"{self.zigbee}:{self.zattr}"`. -/
def keyRepr : Key → String
  | Key.s s => s
  | Key.n i => toString i

def zattrRepr : Option Key → String
  | Option.none => "None"
  | some k => keyRepr k

/-- Lookup key `f"{self.zigbee}:{self.zattr}"` of `ZConverter.config`. -/
def repKey (c : ZConv) : String :=
  keyRepr c.zigbee ++ ":" ++ zattrRepr c.zattr

/-- Membership test `self.zattr in value` (a `None` attribute is simply not a
key of any wire report). -/
def zattrMem (za : Option Key) (d : Dict) : Bool :=
  match za with
  | Option.none => false
  | some k => dmem d k

/-- Lookup `value[self.zattr]` under the guard `self.zattr in value`. -/
def zattrGet (za : Option Key) (d : Dict) : PyVal :=
  match za with
  | Option.none => PyVal.pynone
  | some k => (dget d k).getD PyVal.pynone

/-- Base `ZConverter.decode`: copy the wire value verbatim when the report's
`endpoint` equals `self.ep` and `self.zattr` is a key of the report
(`value["endpoint"]` raises `KeyError` when the report has no endpoint). -/
def ZConverter.decode (c : ZConv) (p : Payload) (value : Dict) :
    Payload × Option PyErr :=
  match dget value (Key.s "endpoint") with
  | Option.none => (p, some PyErr.keyError)
  | some e =>
    if pyEqInt e c.ep && zattrMem c.zattr value then
      (pset p c.attr (zattrGet c.zattr value), Option.none)
    else (p, Option.none)

/-- Python `bool(x)` truthiness for the values of this module. -/
def pyBool : PyVal → Bool
  | PyVal.int v => v ≠ 0
  | PyVal.float q => q ≠ 0
  | PyVal.str s => s ≠ ""
  | PyVal.bool b => b
  | PyVal.pynone => false
  | PyVal.tuple _ _ => true

/-- `ZBoolConv.decode`: like the base decode but coerces with `bool(...)`. -/
def ZBoolConv.decode (c : ZConv) (p : Payload) (value : Dict) :
    Payload × Option PyErr :=
  match dget value (Key.s "endpoint") with
  | Option.none => (p, some PyErr.keyError)
  | some e =>
    if pyEqInt e c.ep && zattrMem c.zattr value then
      (pset p c.attr (PyVal.bool (pyBool (zattrGet c.zattr value))), Option.none)
    else (p, Option.none)

/-- `ZConverter.config`: a bind request when `self.bind` is truthy; then, when
`self.report` is truthy, a configure-reporting request whose interval triple is
the `REPORTING` entry for `cluster:attribute` when `report` is the boolean
`True`, or `self.report` itself when it is an explicit list.  A missing
`REPORTING` entry makes the starred call `zdb_report(..., *None)` raise
`TypeError`; the bind commands appended before the raise stay in the payload,
as the in-place Python mutation does. -/
def ZConverter.config (c : ZConv) (device : XDevice) (gateway : Gateway)
    (p : Payload) : Payload × Option PyErr :=
  let p₁ := if c.bind = some true then
      paddCommands p
        (zdo_bind device.nwk c.ep c.zigbee (device.mac.drop 2) gateway.ieee)
    else p
  match c.report with
  | RepField.nofield => (p₁, Option.none)
  | RepField.rbool b =>
    if b then
      match reportingGet (repKey c) with
      | some (a, m, ch) =>
        (paddCommands p₁ (zdb_report device.nwk c.ep c.zigbee c.attr a m ch),
         Option.none)
      | Option.none => (p₁, some PyErr.typeError)
    else (p₁, Option.none)
  | RepField.rlist l =>
    if l.isEmpty then (p₁, Option.none)
    else
      match l with
      | [a, m, ch] =>
        (paddCommands p₁ (zdb_report device.nwk c.ep c.zigbee c.attr a m ch),
         Option.none)
      | _ => (p₁, some PyErr.typeError)

/-- `ZBrightnessConv.encode`: a bare (non-tuple) value gets the default
transition `1`; a tuple `(level, transition)` is spread into `zcl_level`. -/
def ZBrightnessConv.encode (c : ZConv) (device : XDevice) (p : Payload)
    (value : PyVal) : Payload × Option PyErr :=
  match value with
  | PyVal.tuple a b => (paddCommands p (zcl_level device.nwk c.ep a b), Option.none)
  | v => (paddCommands p (zcl_level device.nwk c.ep v (PyVal.int 1)), Option.none)

/-- `ZTemperatureConv.decode`: guarded by `isinstance(value.get(zattr), int)`,
writes `raw / 100` (Python true division, an exact rational here). -/
def ZTemperatureConv.decode (c : ZConv) (p : Payload) (value : Dict) :
    Payload × Option PyErr :=
  match pyAsInt (dget value (Key.s "measured_value")) with
  | some v => (pset p c.attr (PyVal.float ((v : ℚ) / 100)), Option.none)
  | Option.none => (p, Option.none)

/-- `ZHumidityConv.decode`. -/
def ZHumidityConv.decode (c : ZConv) (p : Payload) (value : Dict) :
    Payload × Option PyErr :=
  match pyAsInt (dget value (Key.s "measured_value")) with
  | some v => (pset p c.attr (PyVal.float ((v : ℚ) / 100)), Option.none)
  | Option.none => (p, Option.none)

/-- `ZIlluminanceConv.decode`. -/
def ZIlluminanceConv.decode (c : ZConv) (p : Payload) (value : Dict) :
    Payload × Option PyErr :=
  match pyAsInt (dget value (Key.s "measured_value")) with
  | some v => (pset p c.attr (PyVal.float ((v : ℚ) / 100)), Option.none)
  | Option.none => (p, Option.none)

/-- Modelled from the spec: `MathConv.decode` lives in `core/converters/base.py`,
not under `src/`.  Per spec §4.1 it scales the numeric wire value by the
per-converter multiplier (default 1, e.g. current ×0.001) and assigns it to
`payload[attr]`; a non-numeric shape is skipped. -/
def MathConv.decode (c : ZConv) (p : Payload) (v : PyVal) :
    Payload × Option PyErr :=
  match v with
  | PyVal.int i => (pset p c.attr (PyVal.float ((i : ℚ) * c.multiply)), Option.none)
  | PyVal.float q => (pset p c.attr (PyVal.float (q * c.multiply)), Option.none)
  | _ => (p, Option.none)

/-- `ZElectricalConv.decode`: no endpoint test; forwards `value[self.zattr]`
to `MathConv.decode` when the key is present. -/
def ZElectricalConv.decode (c : ZConv) (p : Payload) (value : Dict) :
    Payload × Option PyErr :=
  if zattrMem c.zattr value then MathConv.decode c p (zattrGet c.zattr value)
  else (p, Option.none)

/-- `ZBatteryConv.decode`: battery percentage `int(raw / 2)` when
`battery_percentage_remaining` is an int, otherwise `battery_voltage * 100`
when `battery_voltage` is an int, otherwise nothing. -/
def ZBatteryConv.decode (c : ZConv) (p : Payload) (value : Dict) :
    Payload × Option PyErr :=
  match pyAsInt (dget value (Key.s "battery_percentage_remaining")) with
  | some v => (pset p c.attr (PyVal.int (pyInt ((v : ℚ) / 2))), Option.none)
  | Option.none =>
    match pyAsInt (dget value (Key.s "battery_voltage")) with
    | some v => (pset p "battery_voltage" (PyVal.int (v * 100)), Option.none)
    | Option.none => (p, Option.none)

/-- Forward lookup `self.map.get(x)` over a code→label table (an absent code
gives Python `None`). -/
def mapGet (m : List (Int × String)) (x : PyVal) : PyVal :=
  match m.find? (fun kv => pyEqInt x kv.1) with
  | some kv => PyVal.str kv.2
  | Option.none => PyVal.pynone

/-- Python `==` between a map label (a `str`) and an encode argument. -/
def pyEqStr : PyVal → String → Bool
  | PyVal.str s, t => s = t
  | _, _ => false

/-- Reverse lookup `next(k for k, v in self.map.items() if v == value)`:
the first code whose label equals the argument, `None` when the generator is
exhausted (Python raises `StopIteration`). -/
def revLookup (m : List (Int × String)) (value : PyVal) : Option Int :=
  (m.find? (fun kv => pyEqStr value kv.2)).map (fun kv => kv.1)

/-- Label map of `ZTuyaPowerOnConv`. -/
def tuyaMap : List (Int × String) := [(0, "off"), (1, "on"), (2, "previous")]

/-- `ZTuyaPowerOnConv.decode`: forward lookup of `value[0x8002]` when present. -/
def ZTuyaPowerOnConv.decode (c : ZConv) (p : Payload) (value : Dict) :
    Payload × Option PyErr :=
  match dget value (Key.n 0x8002) with
  | some v => (pset p c.attr (mapGet tuyaMap v), Option.none)
  | Option.none => (p, Option.none)

/-- `ZTuyaPowerOnConv.encode`: reverse lookup, then a `zcl_write` of attribute
`0x8002` on cluster `on_off` with `type=0x30`; an exhausted reverse lookup
raises `StopIteration` before any command is built. -/
def ZTuyaPowerOnConv.encode (c : ZConv) (device : XDevice) (p : Payload)
    (value : PyVal) : Payload × Option PyErr :=
  match revLookup tuyaMap value with
  | Option.none => (p, some PyErr.stopIteration)
  | some k =>
    (paddCommands p
      (zcl_write device.nwk c.ep (Key.s "on_off") (Key.n 0x8002) (PyVal.int k)
        Option.none (some 0x30)),
     Option.none)

/-- Label map of `ZAqaraOppleMode`. -/
def oppleMap : List (Int × String) := [(0, "binding"), (1, "multiclick")]

/-- `ZAqaraOppleMode.encode`: reverse lookup, then a `zcl_write` of attribute
`9` on cluster `0xFCC0` with `type=0x20, mfg=0x115f`. -/
def ZAqaraOppleMode.encode (c : ZConv) (device : XDevice) (p : Payload)
    (value : PyVal) : Payload × Option PyErr :=
  match revLookup oppleMap value with
  | Option.none => (p, some PyErr.stopIteration)
  | some k =>
    (paddCommands p
      (zcl_write device.nwk c.ep (Key.n 0xFCC0) (Key.n 9) (PyVal.int k)
        (some 0x115f) (some 0x20)),
     Option.none)

/-- Label map of `ZSonoffButtonConv`. -/
def sonoffMap : List (Int × String) := [(0, "hold"), (1, "double"), (2, "single")]

/-- `ZSonoffButtonConv.decode`: `payload[attr] = self.map.get(value["command_id"])`
— an unguarded `value["command_id"]` (KeyError when absent), and `dict.get`
yielding `None` for an unmapped command id. -/
def ZSonoffButtonConv.decode (c : ZConv) (p : Payload) (value : Dict) :
    Payload × Option PyErr :=
  match dget value (Key.s "command_id") with
  | Option.none => (p, some PyErr.keyError)
  | some v => (pset p c.attr (mapGet sonoffMap v), Option.none)

/-- `ZAqaraCubeMain.decode`: the gesture decision chain over
`value["present_value"]` (KeyError when absent; a non-int value reaches
`value & 0x200` and raises `TypeError` after failing the three `==` tests). -/
def ZAqaraCubeMain.decode (p : Payload) (value : Dict) :
    Payload × Option PyErr :=
  match dget value (Key.s "present_value") with
  | Option.none => (p, some PyErr.keyError)
  | some pv =>
    if pyEqInt pv 0 then (pset p "action" (PyVal.str "shake"), Option.none)
    else if pyEqInt pv 2 then (pset p "action" (PyVal.str "wakeup"), Option.none)
    else if pyEqInt pv 3 then (pset p "action" (PyVal.str "fall"), Option.none)
    else
      match pyAsInt (some pv) with
      | Option.none => (p, some PyErr.typeError)
      | some v =>
        if v.land 0x200 ≠ 0 then
          (pset (pset p "action" (PyVal.str "tap")) "side" (PyVal.int (v.land 7)),
           Option.none)
        else if v.land 0x100 ≠ 0 then
          (pset (pset p "action" (PyVal.str "slide")) "side" (PyVal.int (v.land 7)),
           Option.none)
        else if v.land 0x80 ≠ 0 then
          (pset (pset p "action" (PyVal.str "flip180")) "side" (PyVal.int (v.land 7)),
           Option.none)
        else if v.land 0x40 ≠ 0 then
          (pset (pset (pset p "action" (PyVal.str "flip90"))
            "from_side" (PyVal.int ((pyShr v 3).land 7)))
            "to_side" (PyVal.int (v.land 7)),
           Option.none)
        else (p, Option.none)

/-!
Catalog instances.  `ZCurrent`, `ZVoltage`, `ZPower`, `ZBrightness` and
`ZTuyaPowerOn` are the instances built at the bottom of `zigbee.py`; the
class-attribute values `zigbee` / `zattr` are copied into the record.  The
remaining instances (`tempConv`, …) stand for the standard instantiations of
their classes (built in `core/converters/devices.py`, which is not under
`src/`; the semantic attribute names follow the spec's scenarios). -/

def ZSwitch : ZConv :=
  { attr := "switch", zigbee := Key.s "on_off", zattr := some (Key.s "on_off") }

def ZCurrent : ZConv :=
  { attr := "current", zigbee := Key.s "electrical_measurement",
    zattr := some (Key.s "rms_current"), multiply := 1/1000 }

def ZVoltage : ZConv :=
  { attr := "voltage", zigbee := Key.s "electrical_measurement",
    zattr := some (Key.s "rms_voltage") }

def ZPower : ZConv :=
  { attr := "power", zigbee := Key.s "electrical_measurement",
    zattr := some (Key.s "active_power") }

def ZBrightness : ZConv :=
  { attr := "brightness", zigbee := Key.s "level",
    zattr := some (Key.s "current_level") }

def tempConv : ZConv :=
  { attr := "temperature", zigbee := Key.s "temperature",
    zattr := some (Key.s "measured_value") }

def humiConv : ZConv :=
  { attr := "humidity", zigbee := Key.s "humidity",
    zattr := some (Key.s "measured_value") }

def illuConv : ZConv :=
  { attr := "illuminance", zigbee := Key.s "illuminance",
    zattr := some (Key.s "measured_value") }

def batConv : ZConv :=
  { attr := "battery", zigbee := Key.s "power",
    zattr := some (Key.s "battery_percentage_remaining") }

def sonoffConv : ZConv :=
  { attr := "action", zigbee := Key.s "on_off",
    zattr := some (Key.s "command_id") }

def oppleConv : ZConv :=
  { attr := "mode", zigbee := Key.n 0xFCC0 }

def dev0 : XDevice := { nwk := "0x12ab", mac := "0x00158d0001112233" }

def gw0 : Gateway := { ieee := "0x00124b0009999999" }

/-- Statement-side rendition of claim C1's decision list, written from the
claim's words (first match wins): `v==0` shake; `v==2` wakeup; `v==3` fall;
bit `0x200` tap with `side = v & 7`; bit `0x100` slide; bit `0x80` flip180;
bit `0x40` flip90 with `from_side = (v >> 3) & 7` and `to_side = v & 7`;
otherwise the payload is left unchanged. -/
def cubeClaimDecision (v : Int) (p : Payload) : Payload :=
  if v = 0 then pset p "action" (PyVal.str "shake")
  else if v = 2 then pset p "action" (PyVal.str "wakeup")
  else if v = 3 then pset p "action" (PyVal.str "fall")
  else if v.land 0x200 ≠ 0 then
    pset (pset p "action" (PyVal.str "tap")) "side" (PyVal.int (v.land 7))
  else if v.land 0x100 ≠ 0 then
    pset (pset p "action" (PyVal.str "slide")) "side" (PyVal.int (v.land 7))
  else if v.land 0x80 ≠ 0 then
    pset (pset p "action" (PyVal.str "flip180")) "side" (PyVal.int (v.land 7))
  else if v.land 0x40 ≠ 0 then
    pset (pset (pset p "action" (PyVal.str "flip90"))
      "from_side" (PyVal.int ((pyShr v 3).land 7)))
      "to_side" (PyVal.int (v.land 7))
  else p

/-- Commands that one `ZConverter.config` call appends for the bind half. -/
def bindDelta (c : ZConv) (device : XDevice) (gateway : Gateway) : List Command :=
  if c.bind = some true then
    zdo_bind device.nwk c.ep c.zigbee (device.mac.drop 2) gateway.ieee
  else []

/-- Per-call delta of `ZConverter.config`: the command list one call appends
and the error it raises, both functions of the converter, device and gateway
only (the payload never feeds back into them). -/
def configDelta (c : ZConv) (device : XDevice) (gateway : Gateway) :
    List Command × Option PyErr :=
  let b := bindDelta c device gateway
  match c.report with
  | RepField.nofield => (b, Option.none)
  | RepField.rbool bb =>
    if bb then
      match reportingGet (repKey c) with
      | some (a, m, ch) =>
        (b ++ zdb_report device.nwk c.ep c.zigbee c.attr a m ch, Option.none)
      | Option.none => (b, some PyErr.typeError)
    else (b, Option.none)
  | RepField.rlist l =>
    if l.isEmpty then (b, Option.none)
    else
      match l with
      | [a, m, ch] =>
        (b ++ zdb_report device.nwk c.ep c.zigbee c.attr a m ch, Option.none)
      | _ => (b, some PyErr.typeError)

/-- Converter with `bind=True, report=True` whose `on_off:on_off` key has no
`REPORTING` entry (claim C4's scenario with the bind half switched on). -/
def c4conv : ZConv :=
  { attr := "switch", zigbee := Key.s "on_off", zattr := some (Key.s "on_off"),
    bind := some true, report := RepField.rbool true }

/-- Same converter without the bind flag. -/
def c4convNoBind : ZConv :=
  { attr := "switch", zigbee := Key.s "on_off", zattr := some (Key.s "on_off"),
    report := RepField.rbool true }

/-- C1: for every integer wire value the cube primary-channel decode follows
the claim's first-match decision list, and in particular `0x248` yields
`{action: tap, side: 0}` and `0x140` yields `{action: slide, side: 0}`. -/
theorem c1_cube_decode_matches_claim :
    (∀ (v : Int) (p : Payload),
      ZAqaraCubeMain.decode p [(Key.s "present_value", PyVal.int v)]
        = (cubeClaimDecision v p, Option.none)) ∧
    ZAqaraCubeMain.decode emptyPayload [(Key.s "present_value", PyVal.int 0x248)]
      = ({ attrs := [("action", PyVal.str "tap"), ("side", PyVal.int 0)] },
         Option.none) ∧
    ZAqaraCubeMain.decode emptyPayload [(Key.s "present_value", PyVal.int 0x140)]
      = ({ attrs := [("action", PyVal.str "slide"), ("side", PyVal.int 0)] },
         Option.none) := by
  refine ⟨?_, by decide, by decide⟩
  intro v p
  unfold ZAqaraCubeMain.decode
  rw [show dget [(Key.s "present_value", PyVal.int v)] (Key.s "present_value")
      = some (PyVal.int v) from rfl]
  unfold cubeClaimDecision
  simp only [pyEqInt, pyAsInt, decide_eq_true_eq]
  split_ifs <;> rfl

/-- C2 counterexample: `ZTemperatureConv.decode` (configured endpoint 1) is not
a no-op on a report whose endpoint is 2 — it still writes the temperature, so
the endpoint self-filter does not hold for every converter. -/
theorem c2_counterexample_endpoint_ignored :
    tempConv.ep = 1 ∧
    ZTemperatureConv.decode tempConv emptyPayload
        [(Key.s "endpoint", PyVal.int 2), (Key.s "measured_value", PyVal.int 2350)]
      = ({ attrs := [("temperature", PyVal.float 23.5)] }, Option.none) := by
  refine ⟨rfl, ?_⟩
  rw [show (23.5 : ℚ) = ((2350 : Int) : ℚ) / 100 by norm_num]
  rfl

/-- C2 (amended): converters that use the base `ZConverter.decode` (or the
`ZBoolConv` variant) silently skip a report whose endpoint differs from the
configured endpoint, leaving the payload unchanged; decode overrides such as
`ZTemperatureConv.decode` do not filter by endpoint at all. -/
theorem c2_amended_endpoint_filter :
    (∀ (c : ZConv) (p : Payload) (d : Dict) (e : Int),
      dget d (Key.s "endpoint") = some (PyVal.int e) → e ≠ c.ep →
      ZConverter.decode c p d = (p, Option.none)) ∧
    (∀ (c : ZConv) (p : Payload) (d : Dict) (e : Int),
      dget d (Key.s "endpoint") = some (PyVal.int e) → e ≠ c.ep →
      ZBoolConv.decode c p d = (p, Option.none)) ∧
    (∀ (e v : Int) (p : Payload),
      ZTemperatureConv.decode tempConv p
          [(Key.s "endpoint", PyVal.int e), (Key.s "measured_value", PyVal.int v)]
        = (pset p "temperature" (PyVal.float ((v : ℚ) / 100)), Option.none)) := by
  refine ⟨?_, ?_, ?_⟩
  · intro c p d e hd hne
    unfold ZConverter.decode
    rw [hd]
    simp [pyEqInt, hne]
  · intro c p d e hd hne
    unfold ZBoolConv.decode
    rw [hd]
    simp [pyEqInt, hne]
  · intro e v p
    rfl

/-- Witness for the amended C2 at a concrete mismatched endpoint. -/
theorem c2_amended_witness :
    ZConverter.decode ZSwitch emptyPayload
        [(Key.s "endpoint", PyVal.int 2), (Key.s "on_off", PyVal.int 1)]
      = (emptyPayload, Option.none) :=
  c2_amended_endpoint_filter.1 ZSwitch emptyPayload _ 2 rfl (by decide)

/-- C3 counterexample: `ZSonoffButtonConv.decode` given an unmapped command id
adds a new `action` key with Python `None`, and `ZAqaraCubeMain.decode` raises
`KeyError` when the expected attribute key is missing — so "raises no error and
adds no new key" does not hold for every converter. -/
theorem c3_counterexample_button_and_cube :
    ZSonoffButtonConv.decode sonoffConv emptyPayload
        [(Key.s "endpoint", PyVal.int 1), (Key.s "command_id", PyVal.int 5)]
      = ({ attrs := [("action", PyVal.pynone)] }, Option.none) ∧
    ZAqaraCubeMain.decode emptyPayload [(Key.s "endpoint", PyVal.int 1)]
      = (emptyPayload, some PyErr.keyError) :=
  ⟨rfl, rfl⟩

/-- C3 (amended): converters that guard on presence — the base
`ZConverter.decode`, the isinstance-guarded `ZTemperatureConv.decode`, and the
membership-guarded `ZTuyaPowerOnConv.decode` — treat a missing attribute key or
unmapped command id as a silent skip; but `ZAqaraCubeMain.decode` and
`ZSonoffButtonConv.decode` raise `KeyError` on a missing key, and
`ZSonoffButtonConv.decode` writes a `None` action (a new key) for an unmapped
command id. -/
theorem c3_amended_missing_key :
    (∀ (c : ZConv) (p : Payload) (d : Dict) (e : PyVal),
      dget d (Key.s "endpoint") = some e → zattrMem c.zattr d = false →
      ZConverter.decode c p d = (p, Option.none)) ∧
    (∀ (c : ZConv) (p : Payload) (d : Dict),
      dget d (Key.s "measured_value") = Option.none →
      ZTemperatureConv.decode c p d = (p, Option.none)) ∧
    (∀ (c : ZConv) (p : Payload) (d : Dict),
      dget d (Key.n 0x8002) = Option.none →
      ZTuyaPowerOnConv.decode c p d = (p, Option.none)) ∧
    (∀ (p : Payload) (d : Dict),
      dget d (Key.s "present_value") = Option.none →
      ZAqaraCubeMain.decode p d = (p, some PyErr.keyError)) ∧
    (∀ (c : ZConv) (p : Payload) (d : Dict),
      dget d (Key.s "command_id") = Option.none →
      ZSonoffButtonConv.decode c p d = (p, some PyErr.keyError)) ∧
    (∀ (c : ZConv) (p : Payload) (d : Dict) (x : PyVal),
      dget d (Key.s "command_id") = some x →
      mapGet sonoffMap x = PyVal.pynone →
      ZSonoffButtonConv.decode c p d = (pset p c.attr PyVal.pynone, Option.none)) := by
  refine ⟨?_, ?_, ?_, ?_, ?_, ?_⟩
  · intro c p d e hd hm
    unfold ZConverter.decode
    rw [hd]
    simp [hm]
  · intro c p d hd
    unfold ZTemperatureConv.decode
    rw [hd]
    rfl
  · intro c p d hd
    unfold ZTuyaPowerOnConv.decode
    rw [hd]
  · intro p d hd
    unfold ZAqaraCubeMain.decode
    rw [hd]
  · intro c p d hd
    unfold ZSonoffButtonConv.decode
    rw [hd]
  · intro c p d x hd hm
    unfold ZSonoffButtonConv.decode
    rw [hd]
    show (pset p c.attr (mapGet sonoffMap x), Option.none) = _
    rw [hm]

/-- Witness for the amended C3 at concrete inputs. -/
theorem c3_amended_witness :
    ZConverter.decode ZSwitch emptyPayload [(Key.s "endpoint", PyVal.int 1)]
      = (emptyPayload, Option.none) ∧
    ZSonoffButtonConv.decode sonoffConv emptyPayload
        [(Key.s "command_id", PyVal.int 7)]
      = (pset emptyPayload "action" PyVal.pynone, Option.none) :=
  ⟨c3_amended_missing_key.1 ZSwitch emptyPayload _ (PyVal.int 1) rfl rfl,
   c3_amended_missing_key.2.2.2.2.2 sonoffConv emptyPayload _ (PyVal.int 7) rfl rfl⟩

/-- `ZConverter.config` appends a payload-independent command delta and raises
a payload-independent error: one call is exactly `configDelta`. -/
theorem config_eq_delta (c : ZConv) (device : XDevice) (gateway : Gateway)
    (p : Payload) :
    ZConverter.config c device gateway p
      = ({ p with commands := p.commands ++ (configDelta c device gateway).1 },
         (configDelta c device gateway).2) := by
  unfold ZConverter.config configDelta bindDelta paddCommands
  cases c.report with
  | nofield => split_ifs <;> simp
  | rbool bb =>
    cases bb with
    | false => split_ifs <;> simp
    | true =>
      cases hg : reportingGet (repKey c) with
      | none => split_ifs <;> simp
      | some t =>
        obtain ⟨a, m, ch⟩ := t
        split_ifs <;> simp
  | rlist l =>
    by_cases hl : l.isEmpty <;>
      [skip;
       rcases l with _ | ⟨a, _ | ⟨m, _ | ⟨ch, _ | _⟩⟩⟩] <;>
      split_ifs <;> simp_all

/-- C4 counterexample: a converter with `bind=True, report=True` and no
`REPORTING` entry for its `on_off:on_off` key makes `config` raise `TypeError`,
but one command (the bind request) has already been emitted into the payload —
not the claimed zero. -/
theorem c4_counterexample_bind_emitted :
    reportingGet (repKey c4conv) = Option.none ∧
    (ZConverter.config c4conv dev0 gw0 emptyPayload).2 = some PyErr.typeError ∧
    (ZConverter.config c4conv dev0 gw0 emptyPayload).1.commands.length = 1 :=
  ⟨rfl, rfl, rfl⟩

/-- C4 (amended): when `report` is the boolean `True` and the policy table has
no `cluster:attribute` entry, `config` fails with `TypeError` and appends no
configure-reporting command — the payload gains only the bind request when
`bind` is set, and exactly zero commands when it is not. -/
theorem c4_amended_config_fails (c : ZConv) (device : XDevice)
    (gateway : Gateway) (p : Payload) (hr : c.report = RepField.rbool true)
    (hmiss : reportingGet (repKey c) = Option.none) :
    (ZConverter.config c device gateway p).2 = some PyErr.typeError ∧
    (ZConverter.config c device gateway p).1.commands
      = p.commands ++ bindDelta c device gateway ∧
    (c.bind ≠ some true →
      (ZConverter.config c device gateway p).1.commands = p.commands) := by
  have hd : configDelta c device gateway
      = (bindDelta c device gateway, some PyErr.typeError) := by
    unfold configDelta
    rw [hr, hmiss]
    rfl
  refine ⟨?_, ?_, ?_⟩
  · rw [config_eq_delta, hd]
  · rw [config_eq_delta, hd]
  · intro hb
    rw [config_eq_delta, hd]
    simp [bindDelta, hb]

/-- Witness for the amended C4: the no-bind converter emits zero commands. -/
theorem c4_amended_witness :
    (ZConverter.config c4convNoBind dev0 gw0 emptyPayload).2
      = some PyErr.typeError ∧
    (ZConverter.config c4convNoBind dev0 gw0 emptyPayload).1.commands
      = emptyPayload.commands ++ bindDelta c4convNoBind dev0 gw0 ∧
    (c4convNoBind.bind ≠ some true →
      (ZConverter.config c4convNoBind dev0 gw0 emptyPayload).1.commands
        = emptyPayload.commands) :=
  c4_amended_config_fails c4convNoBind dev0 gw0 emptyPayload rfl rfl

/-- C6 counterexample: `ZAqaraOppleMode` defines no decode — it inherits
`ZConverter.decode` with `zattr = None`, which performs no forward lookup.
`"binding"` is a value of its map and encode's reverse lookup yields code `0`,
yet decoding a report that carries that code leaves the payload unchanged and
writes no label, so "the forward lookup performed by decode" does not
reproduce the label for this converter. -/
theorem c6_counterexample_opple_decode_no_lookup :
    ("binding" ∈ oppleMap.map Prod.snd) ∧
    revLookup oppleMap (PyVal.str "binding") = some 0 ∧
    oppleConv.zattr = Option.none ∧
    ZConverter.decode oppleConv emptyPayload
        [(Key.s "endpoint", PyVal.int 1), (Key.n 9, PyVal.int 0)]
      = (emptyPayload, Option.none) ∧
    pHasKey (ZConverter.decode oppleConv emptyPayload
        [(Key.s "endpoint", PyVal.int 1), (Key.n 9, PyVal.int 0)]).1 "mode"
      = false :=
  ⟨by decide, rfl, rfl, rfl, rfl⟩

/-- C6 (amended): for `ZTuyaPowerOnConv` the whole pipeline round-trips over
every label of its map — `encode` emits a write of the looked-up code and
`decode` of a report carrying that code writes the original label back; for
`ZAqaraOppleMode`, whose inherited decode performs no forward lookup, only the
reverse-then-forward map lookup is the identity on its labels. -/
theorem c6_enum_round_trip (s : String) :
    (s ∈ tuyaMap.map Prod.snd →
      ∃ k, revLookup tuyaMap (PyVal.str s) = some k ∧
        mapGet tuyaMap (PyVal.int k) = PyVal.str s ∧
        (∀ (c : ZConv) (device : XDevice) (p : Payload),
          ZTuyaPowerOnConv.encode c device p (PyVal.str s)
            = (paddCommands p
                (zcl_write device.nwk c.ep (Key.s "on_off") (Key.n 0x8002)
                  (PyVal.int k) Option.none (some 0x30)), Option.none)) ∧
        (∀ (c : ZConv) (p : Payload),
          ZTuyaPowerOnConv.decode c p [(Key.n 0x8002, PyVal.int k)]
            = (pset p c.attr (PyVal.str s), Option.none))) ∧
    (s ∈ oppleMap.map Prod.snd →
      ∃ k, revLookup oppleMap (PyVal.str s) = some k ∧
        mapGet oppleMap (PyVal.int k) = PyVal.str s) := by
  constructor
  · intro h
    simp only [tuyaMap, List.map_cons, List.map_nil, List.mem_cons,
      List.mem_singleton, List.not_mem_nil, or_false] at h
    rcases h with h | h | h <;> subst h
    · exact ⟨0, rfl, rfl, fun c device p => rfl, fun c p => rfl⟩
    · exact ⟨1, rfl, rfl, fun c device p => rfl, fun c p => rfl⟩
    · exact ⟨2, rfl, rfl, fun c device p => rfl, fun c p => rfl⟩
  · intro h
    simp only [oppleMap, List.map_cons, List.map_nil, List.mem_cons,
      List.mem_singleton, List.not_mem_nil, or_false] at h
    rcases h with h | h <;> subst h
    · exact ⟨0, rfl, rfl⟩
    · exact ⟨1, rfl, rfl⟩

/-- Witness for C6 at the concrete label `"on"`. -/
theorem c6_witness :
    ∃ k, revLookup tuyaMap (PyVal.str "on") = some k ∧
      mapGet tuyaMap (PyVal.int k) = PyVal.str "on" ∧
      (∀ (c : ZConv) (device : XDevice) (p : Payload),
        ZTuyaPowerOnConv.encode c device p (PyVal.str "on")
          = (paddCommands p
              (zcl_write device.nwk c.ep (Key.s "on_off") (Key.n 0x8002)
                (PyVal.int k) Option.none (some 0x30)), Option.none)) ∧
      (∀ (c : ZConv) (p : Payload),
        ZTuyaPowerOnConv.decode c p [(Key.n 0x8002, PyVal.int k)]
          = (pset p c.attr (PyVal.str "on"), Option.none)) :=
  (c6_enum_round_trip "on").1 (by decide)

/-- C7: config is idempotent — a second call with the same arguments appends a
command sequence structurally identical to the first call's, and raises the
same error disposition. -/
theorem c7_config_idempotent (c : ZConv) (device : XDevice) (gateway : Gateway)
    (p : Payload) :
    ∃ t, (ZConverter.config c device gateway p).1.commands = p.commands ++ t ∧
      (ZConverter.config c device gateway
          (ZConverter.config c device gateway p).1).1.commands
        = p.commands ++ t ++ t ∧
      (ZConverter.config c device gateway
          (ZConverter.config c device gateway p).1).2
        = (ZConverter.config c device gateway p).2 := by
  refine ⟨(configDelta c device gateway).1, ?_, ?_, ?_⟩ <;>
    simp [config_eq_delta]

/-- C8 counterexample: battery raw value `201` decodes to `100`, which is not
`raw/2 = 100.5` — `int(value / 2)` truncates, so "decodes to raw/2" fails for
odd raw values. -/
theorem c8_counterexample_battery_truncation :
    ZBatteryConv.decode batConv emptyPayload
        [(Key.s "battery_percentage_remaining", PyVal.int 201)]
      = ({ attrs := [("battery", PyVal.int 100)] }, Option.none) ∧
    ((100 : ℚ) ≠ 201 / 2) := by
  constructor
  · rw [show (100 : Int) = pyInt (((201 : Int) : ℚ) / 2) from by
      norm_num [pyInt]]
    rfl
  · norm_num

/-- C8 (amended): temperature, humidity and illuminance decode to `raw/100`;
battery percentage decodes to `int(raw/2)` — truncation toward zero, equal to
`raw/2` for even raw, with `200 ↦ 100` and `0 ↦ 0`; battery voltage decodes to
`raw*100`; electrical values are scaled by the per-converter multiplier
(current by `0.001`); a report with neither battery key leaves the payload
unchanged; and a temperature report with `measured_value` 2350 on endpoint 1
yields `temperature = 23.5`. -/
theorem c8_amended_numeric_scaling :
    (∀ (v : Int) (p : Payload),
      ZTemperatureConv.decode tempConv p [(Key.s "measured_value", PyVal.int v)]
        = (pset p "temperature" (PyVal.float ((v : ℚ) / 100)), Option.none)) ∧
    (∀ (v : Int) (p : Payload),
      ZHumidityConv.decode humiConv p [(Key.s "measured_value", PyVal.int v)]
        = (pset p "humidity" (PyVal.float ((v : ℚ) / 100)), Option.none)) ∧
    (∀ (v : Int) (p : Payload),
      ZIlluminanceConv.decode illuConv p [(Key.s "measured_value", PyVal.int v)]
        = (pset p "illuminance" (PyVal.float ((v : ℚ) / 100)), Option.none)) ∧
    (∀ (v : Int) (p : Payload),
      ZBatteryConv.decode batConv p
          [(Key.s "battery_percentage_remaining", PyVal.int v)]
        = (pset p "battery" (PyVal.int (pyInt ((v : ℚ) / 2))), Option.none)) ∧
    (ZBatteryConv.decode batConv emptyPayload
        [(Key.s "battery_percentage_remaining", PyVal.int 200)]
      = ({ attrs := [("battery", PyVal.int 100)] }, Option.none)) ∧
    (ZBatteryConv.decode batConv emptyPayload
        [(Key.s "battery_percentage_remaining", PyVal.int 0)]
      = ({ attrs := [("battery", PyVal.int 0)] }, Option.none)) ∧
    (∀ (v : Int) (p : Payload),
      ZBatteryConv.decode batConv p [(Key.s "battery_voltage", PyVal.int v)]
        = (pset p "battery_voltage" (PyVal.int (v * 100)), Option.none)) ∧
    (∀ (v : Int) (p : Payload),
      ZElectricalConv.decode ZCurrent p [(Key.s "rms_current", PyVal.int v)]
        = (pset p "current" (PyVal.float ((v : ℚ) * (1 / 1000))), Option.none)) ∧
    (∀ (p : Payload) (d : Dict),
      dget d (Key.s "battery_percentage_remaining") = Option.none →
      dget d (Key.s "battery_voltage") = Option.none →
      ZBatteryConv.decode batConv p d = (p, Option.none)) ∧
    (ZTemperatureConv.decode tempConv emptyPayload
        [(Key.s "endpoint", PyVal.int 1), (Key.s "measured_value", PyVal.int 2350)]
      = ({ attrs := [("temperature", PyVal.float 23.5)] }, Option.none)) := by
  refine ⟨fun v p => rfl, fun v p => rfl, fun v p => rfl, fun v p => rfl,
    ?_, ?_, fun v p => rfl, fun v p => rfl, ?_, ?_⟩
  · rw [show (100 : Int) = pyInt (((200 : Int) : ℚ) / 2) from by
      norm_num [pyInt]]
    rfl
  · nth_rewrite 2 [show (0 : Int) = pyInt (((0 : Int) : ℚ) / 2) from by
      norm_num [pyInt]]
    rfl
  · intro p d h1 h2
    unfold ZBatteryConv.decode
    rw [h1, h2]
    rfl
  · rw [show (23.5 : ℚ) = ((2350 : Int) : ℚ) / 100 by norm_num]
    rfl

/-- Witness for the amended C8's hypothesis-bearing conjunct at the empty
report. -/
theorem c8_amended_witness :
    ZBatteryConv.decode batConv emptyPayload []
      = (emptyPayload, Option.none) :=
  c8_amended_numeric_scaling.2.2.2.2.2.2.2.2.1 emptyPayload [] rfl rfl

/-- C9: the brightness converter encodes a bare (non-tuple) value as exactly
one move-to-level command with that level and the default transition `1`, and
spreads a tuple `(level, transition)` so the second element becomes the
transition; in particular brightness `128` gives one command with level `128`
and transition `1`. -/
theorem c9_brightness_encode :
    (∀ (x : PyVal), (∀ a b, x ≠ PyVal.tuple a b) →
      ∀ (c : ZConv) (device : XDevice) (p : Payload),
      ZBrightnessConv.encode c device p x
        = (paddCommands p [Command.level device.nwk c.ep x (PyVal.int 1)],
           Option.none)) ∧
    (∀ (a b : PyVal) (c : ZConv) (device : XDevice) (p : Payload),
      ZBrightnessConv.encode c device p (PyVal.tuple a b)
        = (paddCommands p [Command.level device.nwk c.ep a b], Option.none)) ∧
    (ZBrightnessConv.encode ZBrightness dev0 emptyPayload (PyVal.int 128)
      = ({ commands := [Command.level dev0.nwk 1 (PyVal.int 128) (PyVal.int 1)] },
         Option.none)) := by
  refine ⟨?_, fun a b c device p => rfl, rfl⟩
  intro x hx c device p
  cases x with
  | tuple a b => exact absurd rfl (hx a b)
  | int v => rfl
  | float q => rfl
  | str s => rfl
  | bool b => rfl
  | pynone => rfl

/-- Witness for C9's non-tuple conjunct at the concrete level `128`. -/
theorem c9_witness :
    ZBrightnessConv.encode ZBrightness dev0 emptyPayload (PyVal.int 128)
      = (paddCommands emptyPayload
          [Command.level dev0.nwk ZBrightness.ep (PyVal.int 128) (PyVal.int 1)],
         Option.none) :=
  c9_brightness_encode.1 (PyVal.int 128) (fun a b h => by cases h)
    ZBrightness dev0 emptyPayload

/-- Assigning the `battery` key never creates or removes a `battery_voltage`
key. -/
theorem aset_keeps_voltage_absent (l : List (String × PyVal)) (v : PyVal) :
    (aset l "battery" v).any (fun kv => kv.1 = "battery_voltage")
      = l.any (fun kv => kv.1 = "battery_voltage") := by
  induction l with
  | nil => rfl
  | cons kv rest ih =>
    by_cases h : kv.1 = "battery"
    · unfold aset
      rw [if_pos h]
      simp [List.any_cons, h]
    · unfold aset
      rw [if_neg h]
      simp [List.any_cons, ih]

/-- C10: when a power-cluster report carries both `battery_percentage_remaining`
and `battery_voltage` as ints, decode writes only the battery percentage — no
`battery_voltage` key is written; the voltage branch runs only when the
percentage key is absent or not an int. -/
theorem c10_battery_percentage_priority :
    (∀ (pct volt : Int) (p : Payload),
      ZBatteryConv.decode batConv p
          [(Key.s "battery_percentage_remaining", PyVal.int pct),
           (Key.s "battery_voltage", PyVal.int volt)]
        = (pset p "battery" (PyVal.int (pyInt ((pct : ℚ) / 2))), Option.none)) ∧
    (∀ (pct volt : Int) (p : Payload),
      pHasKey p "battery_voltage" = false →
      pHasKey (ZBatteryConv.decode batConv p
          [(Key.s "battery_percentage_remaining", PyVal.int pct),
           (Key.s "battery_voltage", PyVal.int volt)]).1 "battery_voltage"
        = false) ∧
    (∀ (volt : Int) (p : Payload) (d : Dict),
      dget d (Key.s "battery_percentage_remaining") = Option.none →
      dget d (Key.s "battery_voltage") = some (PyVal.int volt) →
      ZBatteryConv.decode batConv p d
        = (pset p "battery_voltage" (PyVal.int (volt * 100)), Option.none)) ∧
    (∀ (volt : Int) (s : String) (p : Payload),
      ZBatteryConv.decode batConv p
          [(Key.s "battery_percentage_remaining", PyVal.str s),
           (Key.s "battery_voltage", PyVal.int volt)]
        = (pset p "battery_voltage" (PyVal.int (volt * 100)), Option.none)) := by
  refine ⟨fun pct volt p => rfl, ?_, ?_, fun volt s p => rfl⟩
  · intro pct volt p hp
    show (aset p.attrs "battery" (PyVal.int (pyInt ((pct : ℚ) / 2)))).any
      (fun kv => kv.1 = "battery_voltage") = false
    rw [aset_keeps_voltage_absent]
    exact hp
  · intro volt p d h1 h2
    unfold ZBatteryConv.decode
    rw [h1, h2]
    rfl

/-- Witness for C10's hypothesis-bearing conjuncts at concrete inputs. -/
theorem c10_witness :
    pHasKey (ZBatteryConv.decode batConv emptyPayload
        [(Key.s "battery_percentage_remaining", PyVal.int 200),
         (Key.s "battery_voltage", PyVal.int 30)]).1 "battery_voltage"
      = false ∧
    ZBatteryConv.decode batConv emptyPayload
        [(Key.s "battery_voltage", PyVal.int 30)]
      = (pset emptyPayload "battery_voltage" (PyVal.int (30 * 100)),
         Option.none) :=
  ⟨c10_battery_percentage_priority.2.1 200 30 emptyPayload rfl,
   c10_battery_percentage_priority.2.2.1 30 emptyPayload _ rfl rfl⟩
